import Mathlib

/-!
Shallow embedding of the orca render-server supervisor module
(`plotly/io/_orca.py`) and proofs about the behaviour its specification
claims.

The module keeps three pieces of process-wide mutable state:
  - `config._props` : a Python dict from configuration property names to the
    values that setters stored (absent key means the getter default applies);
  - `status._props` : the observable server status (state string, executable,
    version, pid, port, launch command);
  - `__orca_state`  : the supervisor internals (child process handle,
    idle-shutdown timer, bound port).
We model all three together in a `Global` record and every mutating Python
function as a pure function on `Global`.  Python values living in the config
dict are modelled by `PValue` (None, int, str); Python exceptions are
modelled by `Except String`.  The external world (PATH resolution, probe
outputs of the executable, the ephemeral port picker, the process-spawn
outcomes, and the HTTP exchanges) is abstracted into `ExecEnv` / `World`
records of oracles; the Python code consumes these oracles exactly where it
performs the corresponding effect.  Error message texts are abbreviated:
only which error is raised matters to the claims, not the remediation prose.
-/

set_option autoImplicit false

namespace Orca

/-- Decidable equality of `Except` results, used to evaluate the model at
concrete inputs. -/
instance {ε α : Type} [DecidableEq ε] [DecidableEq α] :
    DecidableEq (Except ε α) := fun x y =>
  match x, y with
  | Except.ok a, Except.ok b =>
    if h : a = b then Decidable.isTrue (by rw [h])
    else Decidable.isFalse (by intro hc; cases hc; exact h rfl)
  | Except.ok _, Except.error _ =>
    Decidable.isFalse (by intro hc; cases hc)
  | Except.error _, Except.ok _ =>
    Decidable.isFalse (by intro hc; cases hc)
  | Except.error e, Except.error f =>
    if h : e = f then Decidable.isTrue (by rw [h])
    else Decidable.isFalse (by intro hc; cases hc; exact h rfl)

/-- A Python value that can be stored in the orca configuration dict:
`None`, an int, or a str.  (`timeout` and `default_scale` also accept
floats at the setter; no claim depends on non-integral numbers, so numbers
are modelled as `Int`.) -/
inductive PValue where
  | vNone : PValue
  | vInt : Int → PValue
  | vStr : String → PValue
deriving DecidableEq

/-- Python truthiness of a modelled value: `None`, `0` and the empty string
are falsy, everything else is truthy. -/
def pyTruthy : PValue → Bool
  | PValue.vNone => false
  | PValue.vInt n => n != 0
  | PValue.vStr s => s != ""

/-- Rendering of a modelled value as the string Python `str()` produces.
The launch-command assembly applies `str` to the port and inserts the other
configured values directly; in every reachable state those are strings, so
this total rendering only matters for the port. -/
def pvToCmdStr : PValue → String
  | PValue.vNone => "None"
  | PValue.vInt n => toString n
  | PValue.vStr s => s

/-- The configuration dict `config._props`, as an association list in
insertion order (Python dicts preserve insertion order). -/
abbrev PropDict := List (String × PValue)

/-- Python `d.get(k)` as an `Option`. -/
def dlookup : PropDict → String → Option PValue
  | [], _ => none
  | (k', v) :: rest, k => if k' = k then some v else dlookup rest k

/-- Python `k in d`. -/
def dcontains (d : PropDict) (k : String) : Bool :=
  (dlookup d k).isSome

/-- Python `d.get(k, dflt)`. -/
def dget (d : PropDict) (k : String) (dflt : PValue) : PValue :=
  (dlookup d k).getD dflt

/-- Python `d[k] = v`: replace the value of an existing key in place, or
append a new key at the end. -/
def dinsert : PropDict → String → PValue → PropDict
  | [], k, v => [(k, v)]
  | (k', v') :: rest, k, v =>
    if k' = k then (k, v) :: rest else (k', v') :: dinsert rest k v

/-- ASCII lower-casing of one character, as Python `str.lower` acts on the
ASCII range.  (Python `lower` also folds non-ASCII letters; none of the
non-ASCII foldings can produce a supported format name, so the ASCII model
agrees with Python on every membership test made by the module.) -/
def asciiLower (c : Char) : Char :=
  if 'A' ≤ c ∧ c ≤ 'Z' then Char.ofNat (c.toNat + 32) else c

/-- Python `s.lower()` restricted to ASCII folding. -/
def pyLower (s : String) : String :=
  String.mk (s.data.map asciiLower)

/-- Python whitespace test used by `str.strip` (ASCII whitespace). -/
def isPyWs (c : Char) : Bool :=
  c = ' ' || c = '\t' || c = '\n' || c = '\r' || c = '\x0b' || c = '\x0c'

/-- Python `s.strip()`. -/
def pyStrip (s : String) : String :=
  String.mk (((s.data.dropWhile isPyWs).reverse.dropWhile isPyWs).reverse)

/-- Boolean list-prefix test (needle, haystack). -/
def listIsPrefix : List Char → List Char → Bool
  | [], _ => true
  | _ :: _, [] => false
  | a :: as, b :: bs => a = b && listIsPrefix as bs

/-- Boolean substring test (Python `needle in hay`). -/
def listIsSubstr (needle : List Char) : List Char → Bool
  | [] => listIsPrefix needle []
  | b :: bs => listIsPrefix needle (b :: bs) || listIsSubstr needle bs

/-- Python `needle in hay` on strings. -/
def strContains (hay needle : String) : Bool :=
  listIsSubstr needle.data hay.data

-- Image format validation (`valid_formats`, `_format_conversions`,
-- `_validate_coerce_format`)
----------------------------------------------------------------------

/-- `valid_formats`: the fixed tuple of supported image formats. -/
def valid_formats : List String :=
  ["png", "jpeg", "webp", "svg", "pdf", "eps"]

/-- `_format_conversions`: identity on each valid format plus the alias
`jpg` to `jpeg`, in the insertion order the module builds it. -/
def format_conversions : List (String × String) :=
  [("png", "png"), ("jpeg", "jpeg"), ("webp", "webp"), ("svg", "svg"),
   ("pdf", "pdf"), ("eps", "eps"), ("jpg", "jpeg")]

/-- Association-list lookup for the format conversion table. -/
def lookupAssoc : List (String × String) → String → Option String
  | [], _ => none
  | (k', v) :: rest, k => if k' = k then some v else lookupAssoc rest k

/-- The `fmt[1:]` step of `_validate_coerce_format`: drop one leading dot. -/
def stripLeadingDot (s : String) : String :=
  match s.data with
  | '.' :: rest => String.mk rest
  | _ => s

/-- The normalisation pipeline of `_validate_coerce_format` on a non-empty
string: lower-case, strip one leading dot, then look the result up in the
conversion table (`none` models the ValueError branch). -/
def coerceFormatStr (s : String) : Option String :=
  lookupAssoc format_conversions (stripLeadingDot (pyLower s))

/-- `_raise_format_value_error`, abbreviated to the value it complains
about. -/
def formatErrorMsg (s : String) : String :=
  "Invalid image format: " ++ s

/-- `_validate_coerce_format`: `None` passes through; a non-string or empty
value raises; otherwise the string is lower-cased, one leading dot is
stripped, and the result must be a key of the conversion table. -/
def validate_coerce_format : PValue → Except String PValue
  | PValue.vNone => Except.ok PValue.vNone
  | PValue.vStr s =>
    if s = "" then Except.error (formatErrorMsg s)
    else
      match lookupAssoc format_conversions (stripLeadingDot (pyLower s)) with
      | some f => Except.ok (PValue.vStr f)
      | none =>
        Except.error (formatErrorMsg (stripLeadingDot (pyLower s)))
  | v => Except.error (formatErrorMsg (pvToCmdStr v))

-- Process-wide state (`status._props`, `__orca_state`, `config._props`)
----------------------------------------------------------------------

/-- `status._props`, the observable orca server status. -/
structure StatusProps where
  state : String
  executable : Option String
  version : Option String
  pid : Option Int
  port : Option PValue
  command : Option (List String)
deriving DecidableEq

/-- `__orca_state`, the supervisor internals: the child process handle
(modelled by its pid), the armed idle-shutdown timer (modelled by the
timeout value it was armed with), and the port chosen for the launch. -/
structure OrcaProcState where
  proc : Option Int
  shutdownTimer : Option PValue
  port : Option PValue
deriving DecidableEq

/-- The whole process-wide mutable state of the module.  `plotlyjsPath` and
`topojsonDefaultPath` model the constants computed in `OrcaConfig.__init__`
from the installed package location (`_constants`, `package_dir`). -/
structure Global where
  props : PropDict
  plotlyjsPath : String
  topojsonDefaultPath : String
  status : StatusProps
  orca : OrcaProcState
deriving DecidableEq

/-- The CDN URL that is the `mathjax` getter default. -/
def mathjaxDefault : String :=
  "https://cdnjs.cloudflare.com/ajax/libs/mathjax/2.7.5/MathJax.js"

-- Configuration property getters (each mirrors one `@property` body)

/-- `config.executable` getter. -/
def cfgExecutable (g : Global) : PValue :=
  dget g.props "executable" (PValue.vStr "orca")

/-- `config.port` getter. -/
def cfgPort (g : Global) : PValue :=
  dget g.props "port" PValue.vNone

/-- `config.timeout` getter. -/
def cfgTimeout (g : Global) : PValue :=
  dget g.props "timeout" PValue.vNone

/-- `config.default_width` getter. -/
def cfgDefaultWidth (g : Global) : PValue :=
  dget g.props "default_width" PValue.vNone

/-- `config.default_height` getter. -/
def cfgDefaultHeight (g : Global) : PValue :=
  dget g.props "default_height" PValue.vNone

/-- `config.default_format` getter. -/
def cfgDefaultFormat (g : Global) : PValue :=
  dget g.props "default_format" (PValue.vStr "png")

/-- `config.default_scale` getter. -/
def cfgDefaultScale (g : Global) : PValue :=
  dget g.props "default_scale" (PValue.vInt 1)

/-- `config.plotlyjs` getter: the constant bundled plotly.js path. -/
def cfgPlotlyjs (g : Global) : PValue :=
  PValue.vStr g.plotlyjsPath

/-- `config.topojson` getter: stored value, else the bundled topojson
directory. -/
def cfgTopojson (g : Global) : PValue :=
  dget g.props "topojson" (PValue.vStr g.topojsonDefaultPath)

/-- `config.mathjax` getter: stored value, else the CDN URL. -/
def cfgMathjax (g : Global) : PValue :=
  dget g.props "mathjax" (PValue.vStr mathjaxDefault)

/-- `config.mapbox_access_token` getter. -/
def cfgMapbox (g : Global) : PValue :=
  dget g.props "mapbox_access_token" PValue.vNone

-- Shutdown and status reset
----------------------------------------------------------------------

/-- `shutdown_orca_server`: when no child process handle is present the
whole body is skipped; otherwise the child and its descendants are
terminated, the process handle, timer and port are cleared, and the status
is reset to `validated` with no pid, port, or command (`executable` and
`version` are retained). -/
def shutdown_orca_server (g : Global) : Global :=
  match g.orca.proc with
  | none => g
  | some _ =>
    { g with
      orca := { proc := none, shutdownTimer := none, port := none },
      status :=
        { g.status with
          state := "validated", pid := none, port := none, command := none } }

/-- `reset_orca_status`: shutdown, then clear `executable` and `version`
and drop the state back to `unvalidated`. -/
def reset_orca_status (g : Global) : Global :=
  let g := shutdown_orca_server g
  { g with
    status :=
      { g.status with executable := none, version := none,
                      state := "unvalidated" } }

/-- `OrcaConfig.restore_defaults`: clear the property dict, optionally
resetting the server status as well. -/
def restore_defaults (g : Global) (resetServer : Bool) : Global :=
  let g := { g with props := [] }
  if resetServer then reset_orca_status g else g

-- Configuration property setters (each mirrors one `@<name>.setter` body)
----------------------------------------------------------------------

/-- `port` setter: accepts `None` or an int; stores the value.  It does
not touch the running server. -/
def setPort (g : Global) (v : PValue) : Except String Global :=
  match v with
  | PValue.vStr _ => Except.error "The port value must be an integer"
  | _ => Except.ok { g with props := dinsert g.props "port" v }

/-- `executable` setter: a falsy value is replaced by the default
`"orca"`; a non-string raises; then the value is stored and
`shutdown_orca_server` runs before the setter returns. -/
def setExecutable (g : Global) (v : PValue) : Except String Global :=
  let v := if pyTruthy v then v else PValue.vStr "orca"
  match v with
  | PValue.vStr s =>
    Except.ok
      (shutdown_orca_server
        { g with props := dinsert g.props "executable" (PValue.vStr s) })
  | _ => Except.error "The executable property must be a string"

/-- `timeout` setter: accepts `None` or a number; stores the value. -/
def setTimeout (g : Global) (v : PValue) : Except String Global :=
  match v with
  | PValue.vStr _ => Except.error "The timeout property must be a number"
  | _ => Except.ok { g with props := dinsert g.props "timeout" v }

/-- `default_width` setter: accepts `None` or an int; stores the value. -/
def setDefaultWidth (g : Global) (v : PValue) : Except String Global :=
  match v with
  | PValue.vStr _ => Except.error "The default_width property must be an int"
  | _ => Except.ok { g with props := dinsert g.props "default_width" v }

/-- `default_height` setter: accepts `None` or an int; stores the value. -/
def setDefaultHeight (g : Global) (v : PValue) : Except String Global :=
  match v with
  | PValue.vStr _ => Except.error "The default_height property must be an int"
  | _ => Except.ok { g with props := dinsert g.props "default_height" v }

/-- `default_format` setter: the value is validated and coerced by
`_validate_coerce_format` and the coerced value stored. -/
def setDefaultFormat (g : Global) (v : PValue) : Except String Global :=
  match validate_coerce_format v with
  | Except.error e => Except.error e
  | Except.ok v' =>
    Except.ok { g with props := dinsert g.props "default_format" v' }

/-- `default_scale` setter: accepts `None` or a number; stores the value. -/
def setDefaultScale (g : Global) (v : PValue) : Except String Global :=
  match v with
  | PValue.vStr _ => Except.error "The default_scale property must be a number"
  | _ => Except.ok { g with props := dinsert g.props "default_scale" v }

/-- `topojson` setter: accepts `None` or a string; stores the value, then
`shutdown_orca_server` runs before the setter returns. -/
def setTopojson (g : Global) (v : PValue) : Except String Global :=
  match v with
  | PValue.vInt _ => Except.error "The topojson property must be a string"
  | _ =>
    Except.ok
      (shutdown_orca_server { g with props := dinsert g.props "topojson" v })

/-- `mathjax` setter: accepts `None` or a string; stores the value, then
`shutdown_orca_server` runs before the setter returns. -/
def setMathjax (g : Global) (v : PValue) : Except String Global :=
  match v with
  | PValue.vInt _ => Except.error "The mathjax property must be a string"
  | _ =>
    Except.ok
      (shutdown_orca_server { g with props := dinsert g.props "mathjax" v })

/-- `mapbox_access_token` setter: accepts `None` or a string; stores the
value, then `shutdown_orca_server` runs before the setter returns. -/
def setMapboxAccessToken (g : Global) (v : PValue) : Except String Global :=
  match v with
  | PValue.vInt _ =>
    Except.error "The mapbox_access_token property must be a string"
  | _ =>
    Except.ok
      (shutdown_orca_server
        { g with props := dinsert g.props "mapbox_access_token" v })

/-- `setattr(config, k, v)` for the property names that can occur as keys
of `config._props`.  `update` only reaches this after checking that the
key is already a key of `_props`, and `_props` keys are only ever created
by the setters above, so the catch-all branch (a plain instance-attribute
assignment in Python) is unreachable from reachable states; it is modelled
as a no-op. -/
def setattrConfig (g : Global) (k : String) (v : PValue) :
    Except String Global :=
  if k = "port" then setPort g v
  else if k = "executable" then setExecutable g v
  else if k = "timeout" then setTimeout g v
  else if k = "default_width" then setDefaultWidth g v
  else if k = "default_height" then setDefaultHeight g v
  else if k = "default_format" then setDefaultFormat g v
  else if k = "default_scale" then setDefaultScale g v
  else if k = "topojson" then setTopojson g v
  else if k = "mathjax" then setMathjax g v
  else if k = "mapbox_access_token" then setMapboxAccessToken g v
  else Except.ok g

-- `OrcaConfig.update`
----------------------------------------------------------------------

/-- The key-validation loop of `OrcaConfig.update`: the first update key
that is not already a key of `_props`, if any.  Python raises
`ValueError` at that key before applying anything. -/
def invalidKey (props : PropDict) : List (String × PValue) → Option String
  | [] => none
  | (k, _) :: rest =>
    if dcontains props k then invalidKey props rest else some k

/-- The application loop of `OrcaConfig.update`: apply `setattr` for each
pair in order.  If a setter raises, mutations already applied persist
(the returned state is the one reached so far) and the error escapes. -/
def applyUpdates (g : Global) :
    List (String × PValue) → Global × Option String
  | [] => (g, none)
  | (k, v) :: rest =>
    match setattrConfig g k v with
    | Except.ok g' => applyUpdates g' rest
    | Except.error e => (g, some e)

/-- `OrcaConfig.update` on the combined dict of positional and keyword
updates: validate every key against the current `_props` first, raising
`ValueError` with no mutation if any key is unknown; then apply the
setters in order. -/
def configUpdate (g : Global) (updates : List (String × PValue)) :
    Global × Option String :=
  match invalidKey g.props updates with
  | some k => (g, some ("Invalid property name: " ++ k))
  | none => applyUpdates g updates

-- `OrcaConfig.save` / `OrcaConfig.reload`
----------------------------------------------------------------------

/-- What the on-disk config file can present to `reload`: missing,
unreadable-or-malformed, or a parsed JSON object. -/
inductive ConfigFile where
  | missing : ConfigFile
  | unreadable : ConfigFile
  | contents : PropDict → ConfigFile
deriving DecidableEq

/-- `OrcaConfig.save`: the file contents written are exactly the in-memory
property dict (`json.dump(self._props, f, indent=4)`). -/
def configSave (g : Global) : ConfigFile :=
  ConfigFile.contents g.props

/-- `OrcaConfig.reload`: a missing file or a read/parse failure only warns
and changes nothing; otherwise each key/value of the parsed object is
applied only if the key is already a key of the in-memory `_props`
(`if k in self._props: self._props[k] = v`). -/
def configReload (g : Global) (f : ConfigFile) : Global :=
  match f with
  | ConfigFile.missing => g
  | ConfigFile.unreadable => g
  | ConfigFile.contents orcaProps =>
    { g with
      props :=
        orcaProps.foldl
          (fun acc kv =>
            if dcontains acc kv.1 then dinsert acc kv.1 kv.2 else acc)
          g.props }

-- Executable validation (`validate_orca_executable`)
----------------------------------------------------------------------

/-- The pieces of the operating system environment that
`validate_orca_executable` consumes: whether psutil is importable, PATH
resolution (`which`), and the stdout of the two probe runs of the resolved
binary (`none` models a `CalledProcessError`). -/
structure ExecEnv where
  psutil : Bool
  whichExe : String → Option String
  helpOutput : String → Option String
  versionOutput : String → Option String

/-- `validate_orca_executable`: a no-op unless the state is `unvalidated`;
otherwise resolve `config.executable` on the PATH (falling back to
`orca.js` when the configured name is the default `orca`), require the
`--help` output to exist, be non-empty and contain `plotly`
case-insensitively, require the `--version` output to exist and be
non-empty, then record the resolved path and stripped version and move the
state to `validated`. -/
def validate_orca_executable (env : ExecEnv) (g : Global) :
    Except String Global :=
  if g.status.state ≠ "unvalidated" then Except.ok g
  else
    let name := pvToCmdStr (cfgExecutable g)
    let resolved :=
      match env.whichExe name with
      | some p => some p
      | none => if name = "orca" then env.whichExe "orca.js" else none
    match resolved with
    | none => Except.error "The orca executable could not be found"
    | some executable =>
      match env.helpOutput executable with
      | none => Except.error "invalid orca executable"
      | some help =>
        if help = "" then Except.error "invalid orca executable"
        else if ¬ strContains (pyLower help) "plotly" then
          Except.error "invalid orca executable"
        else
          match env.versionOutput executable with
          | none => Except.error "error requesting orca version"
          | some ver =>
            if ver = "" then Except.error "no orca version reported"
            else
              Except.ok
                { g with
                  status :=
                    { g.status with
                      executable := some executable,
                      version := some (pyStrip ver),
                      state := "validated" } }

-- Server launch (`ensure_orca_server`)
----------------------------------------------------------------------

/-- The external-world oracles `ensure_orca_server` consumes beyond
`ExecEnv`: the ephemeral port `_find_open_port` would return, and the
outcome of the n-th `subprocess.Popen` call of the current operation
(`Except.error` models a raised spawn failure).  The source calls `Popen`
at most once per `ensure_orca_server` call, so only index 0 is ever
consulted; the index makes a hypothetical retry observable. -/
structure World where
  env : ExecEnv
  freshPort : Int
  spawn : Nat → Except String Int

/-- The launch command assembly of `ensure_orca_server`, written as the
successive `cmd_list.extend` steps of the source. -/
def buildCmd (g : Global) (portv : PValue) : List String :=
  let cmd := [pvToCmdStr (cfgExecutable g), "serve",
              "-p", pvToCmdStr portv, "--graph-only"]
  let cmd := if pyTruthy (cfgPlotlyjs g) then
      cmd ++ ["--plotly", pvToCmdStr (cfgPlotlyjs g)] else cmd
  let cmd := if pyTruthy (cfgTopojson g) then
      cmd ++ ["--topojson", pvToCmdStr (cfgTopojson g)] else cmd
  let cmd := if pyTruthy (cfgMathjax g) then
      cmd ++ ["--mathjax", pvToCmdStr (cfgMathjax g)] else cmd
  let cmd := if pyTruthy (cfgMapbox g) then
      cmd ++ ["--mapbox-access-token", pvToCmdStr (cfgMapbox g)] else cmd
  cmd

/-- The port selection of `ensure_orca_server`: the configured port when
it is not `None`, else the fresh ephemeral port `_find_open_port`
returns. -/
def portChoice (w : World) (g : Global) : PValue :=
  match cfgPort g with
  | PValue.vNone => PValue.vInt w.freshPort
  | v => v

/-- The launch block of `ensure_orca_server` (inside the lock): if a
process handle exists nothing happens; otherwise choose the port,
assemble the command, spawn the process (a raised spawn failure
propagates), and record pid, port, command and `state = running`. -/
def launchIfNeeded (w : World) (g : Global) : Except String Global :=
  match g.orca.proc with
  | some _ => Except.ok g
  | none =>
    let portv := portChoice w g
    let cmd := buildCmd g portv
    match w.spawn 0 with
    | Except.error e => Except.error e
    | Except.ok pid =>
      Except.ok
        { g with
          orca := { proc := some pid,
                    shutdownTimer := g.orca.shutdownTimer,
                    port := some portv },
          status :=
            { g.status with
              state := "running", pid := some pid, port := some portv,
              command := some cmd } }

/-- The timer re-arm at the end of `ensure_orca_server`: when
`config.timeout` is not `None`, a fresh one-shot shutdown timer is armed
with it. -/
def armTimer (g : Global) : Global :=
  match cfgTimeout g with
  | PValue.vNone => g
  | t => { g with orca := { g.orca with shutdownTimer := some t } }

/-- `ensure_orca_server`: require psutil; validate the executable when the
state is `unvalidated`; then, under the lock, cancel any pending shutdown
timer, launch a server process if none is active, and re-arm the idle
timer when a timeout is configured. -/
def ensure_orca_server (w : World) (g : Global) : Except String Global :=
  if w.env.psutil = false then
    Except.error "Image generation requires the psutil package"
  else
    match
      (if g.status.state = "unvalidated" then
        validate_orca_executable w.env g
      else Except.ok g) with
    | Except.error e => Except.error e
    | Except.ok g =>
      let g := { g with orca := { g.orca with shutdownTimer := none } }
      match launchIfNeeded w g with
      | Except.error e => Except.error e
      | Except.ok g => Except.ok (armTimer g)

-- Render client (`_request_image_with_retrying`)
----------------------------------------------------------------------

/-- One HTTP exchange with the server: either the POST completed and
produced a response with a status code and a body, or it raised (for
example a connection error while the server socket is not ready yet). -/
inductive HttpResult where
  | response : Nat → List Nat → HttpResult
  | connError : String → HttpResult
deriving DecidableEq

/-- The undecorated body of `_request_image_with_retrying` on one
exchange: `r = requests.post(...); return r.content` — the response body
is returned without any inspection of the status code, and a raised
connection error escapes as an exception. -/
def requestImageOnce : HttpResult → Except String (List Nat)
  | HttpResult.response _ content => Except.ok content
  | HttpResult.connError m => Except.error m

/-- The `retrying.retry(wait_random_min=5, wait_random_max=10,
stop_max_delay=10000)` wrapper: any raised exception is retried until the
elapsed-time budget is exhausted, after which the last exception is
re-raised (`wrap_exception` defaults to false).  The list is the sequence
of exchange outcomes that fit into the budget; its last element is the
final permitted attempt. -/
def requestImageWithRetrying : List HttpResult → Except String (List Nat)
  | [] => Except.error "retry budget exhausted"
  | [r] => requestImageOnce r
  | r :: r' :: rest =>
    match requestImageOnce r with
    | Except.ok c => Except.ok c
    | Except.error _ => requestImageWithRetrying (r' :: rest)

-- `to_image` and `write_image`
----------------------------------------------------------------------

/-- `to_image` (the figure payload itself is irrelevant to every claim and
is omitted from the model): ensure the server is running, fill
format/scale/width/height from the configuration defaults when `None`,
validate and coerce the format, then perform the retried image request.
The returned pair is the post-call global state and the image bytes. -/
def toImage (w : World) (g : Global)
    (format width height scale : PValue) (attempts : List HttpResult) :
    Except String (Global × List Nat) :=
  match ensure_orca_server w g with
  | Except.error e => Except.error e
  | Except.ok g =>
    let format := if format = PValue.vNone then cfgDefaultFormat g else format
    match validate_coerce_format format with
    | Except.error e => Except.error e
    | Except.ok _format =>
      let _scale := if scale = PValue.vNone then cfgDefaultScale g else scale
      let _width := if width = PValue.vNone then cfgDefaultWidth g else width
      let _height :=
        if height = PValue.vNone then cfgDefaultHeight g else height
      match requestImageWithRetrying attempts with
      | Except.error e => Except.error e
      | Except.ok img => Except.ok (g, img)

/-- Last index of a character in a character list, if present
(Python `str.rfind`). -/
def lastIndexOf (c : Char) : List Char → Option Nat
  | [] => none
  | x :: xs =>
    match lastIndexOf c xs with
    | some i => some (i + 1)
    | none => if x = c then some 0 else none

/-- The leading-dots scan of CPython `posixpath.splitext`: true when some
position in `[start, stop)` holds a character other than a dot. -/
def existsNonDot (l : List Char) (start stop : Nat) : Bool :=
  ((l.drop start).take (stop - start)).any (fun c => c ≠ '.')

/-- `os.path.splitext` for POSIX paths: split at the last dot that comes
after the last path separator, unless every character of the base name
before that dot is itself a dot (so a leading-dot file name has no
extension). -/
def pySplitext (p : String) : String × String :=
  let l := p.data
  let sepIdx : Int :=
    match lastIndexOf '/' l with
    | some i => Int.ofNat i
    | none => -1
  let dotIdx : Int :=
    match lastIndexOf '.' l with
    | some i => Int.ofNat i
    | none => -1
  if dotIdx > sepIdx ∧
      existsNonDot l (sepIdx + 1).toNat dotIdx.toNat then
    (String.mk (l.take dotIdx.toNat), String.mk (l.drop dotIdx.toNat))
  else (p, "")

/-- `write_image` for a string destination (the `file_is_str` branch of
the source): when no format is given, infer it from the file extension,
raising `ValueError` when the path has none; only then convert the image
(which contacts the server) and finally write the destination file.  The
successful result records the post-call state, the path written, and the
bytes written to it; an error result means no file was created and, when
the error came from format inference, no request was made. -/
def writeImage (w : World) (g : Global) (file : String)
    (format width height scale : PValue) (attempts : List HttpResult) :
    Except String (Global × String × List Nat) :=
  match
    (if format = PValue.vNone then
      let ext := (pySplitext file).2
      if ext ≠ "" then validate_coerce_format (PValue.vStr ext)
      else
        Except.error ("Cannot infer image type from output path " ++ file)
    else Except.ok format) with
  | Except.error e => Except.error e
  | Except.ok format =>
    match toImage w g format width height scale attempts with
    | Except.error e => Except.error e
    | Except.ok (g, img) => Except.ok (g, file, img)

-- Concrete fixtures used by witnesses and counterexamples
----------------------------------------------------------------------

/-- The module state right after import: empty configuration dict
(`restore_defaults` in `__init__`), package constants, `unvalidated`
status with all fields `None`, and an empty supervisor state. -/
def freshGlobal : Global :=
  { props := []
    plotlyjsPath := "/pkg/plotly.min.js"
    topojsonDefaultPath := "/pkg/topojson"
    status :=
      { state := "unvalidated", executable := none, version := none,
        pid := none, port := none, command := none }
    orca := { proc := none, shutdownTimer := none, port := none } }

/-- A concrete healthy environment: psutil importable, `orca` resolves on
the PATH, and both probe runs answer as a genuine orca build does. -/
def env0 : ExecEnv :=
  { psutil := true
    whichExe := fun s => if s = "orca" then some "/usr/bin/orca" else none
    helpOutput := fun _ => some "Plotly Orca: static image exporter"
    versionOutput := fun _ => some "1.2.1\n" }

/-- A concrete world in which the spawn succeeds with pid 4242 and the
ephemeral port picker returns 32000. -/
def w0 : World :=
  { env := env0, freshPort := 32000, spawn := fun _ => Except.ok 4242 }

/-- The state after validating the executable in `env0` from the freshly
imported state. -/
def gValidated : Global :=
  (validate_orca_executable env0 freshGlobal).toOption.getD freshGlobal

/-- The state after a successful `ensure_orca_server` in `w0` from the
fresh import state: a server is running with pid 4242 on port 32000. -/
def gRunning : Global :=
  (ensure_orca_server w0 freshGlobal).toOption.getD freshGlobal

/-- A world identical to `w0` except that the first spawn attempt raises a
port-bind failure while a second attempt, were one ever made, would
succeed. -/
def wPortRace : World :=
  { env := env0, freshPort := 32000,
    spawn := fun n =>
      if n = 0 then Except.error "PortUnavailableError" else Except.ok 4343 }

/-- The configuration reached from a fresh state by setting the six scalar
properties through their setters: port 8999, timeout 30, default_format
svg, default_width 500, default_height 300, default_scale 2. -/
def gSixScalars : Global :=
  (do
    let g ← setPort freshGlobal (PValue.vInt 8999)
    let g ← setTimeout g (PValue.vInt 30)
    let g ← setDefaultFormat g (PValue.vStr "svg")
    let g ← setDefaultWidth g (PValue.vInt 500)
    let g ← setDefaultHeight g (PValue.vInt 300)
    setDefaultScale g (PValue.vInt 2) : Except String Global).toOption.getD
    freshGlobal

-- Helper lemmas shared by the claim theorems
----------------------------------------------------------------------

lemma armTimer_status (g : Global) : (armTimer g).status = g.status := by
  unfold armTimer
  rcases cfgTimeout g with _ | n | s <;> rfl

lemma lookupAssoc_mem_values (l : List (String × String)) (k f : String)
    (h : lookupAssoc l k = some f) : f ∈ l.map Prod.snd := by
  induction l with
  | nil => simp [lookupAssoc] at h
  | cons kv rest ih =>
    rcases kv with ⟨k', v⟩
    by_cases hk : k' = k
    · simp [lookupAssoc, hk] at h
      simp [h]
    · simp [lookupAssoc, hk] at h
      simp [ih h]

lemma invalidKey_isSome_of_mem (props : PropDict)
    (updates : List (String × PValue)) (k : String) (v : PValue)
    (hmem : (k, v) ∈ updates) (hcon : dcontains props k = false) :
    (invalidKey props updates).isSome := by
  induction updates with
  | nil => cases hmem
  | cons kv rest ih =>
    rcases kv with ⟨k', v'⟩
    rcases List.mem_cons.mp hmem with heq | htail
    · cases heq
      simp [invalidKey, hcon]
    · by_cases hc : dcontains props k'
      · simpa [invalidKey, hc] using ih htail
      · simp [invalidKey, hc]

lemma buildCmd_eq_append (g : Global) (p : PValue) :
    buildCmd g p =
      [pvToCmdStr (cfgExecutable g), "serve", "-p", pvToCmdStr p,
       "--graph-only"] ++
      (if pyTruthy (cfgPlotlyjs g) then
        ["--plotly", pvToCmdStr (cfgPlotlyjs g)] else []) ++
      (if pyTruthy (cfgTopojson g) then
        ["--topojson", pvToCmdStr (cfgTopojson g)] else []) ++
      (if pyTruthy (cfgMathjax g) then
        ["--mathjax", pvToCmdStr (cfgMathjax g)] else []) ++
      (if pyTruthy (cfgMapbox g) then
        ["--mapbox-access-token", pvToCmdStr (cfgMapbox g)] else []) := by
  simp only [buildCmd]
  split_ifs <;> simp [List.append_assoc]

lemma ensure_launched (w : World) (g : Global) (pid : Int)
    (hps : w.env.psutil = true) (hst : g.status.state = "validated")
    (hproc : g.orca.proc = none) (hspawn : w.spawn 0 = Except.ok pid) :
    ensure_orca_server w g =
      Except.ok (armTimer
        { g with
          orca :=
            { proc := some pid, shutdownTimer := none,
              port := some (portChoice w g) },
          status :=
            { g.status with
              state := "running", pid := some pid,
              port := some (portChoice w g),
              command := some (buildCmd g (portChoice w g)) } }) := by
  simp [ensure_orca_server, launchIfNeeded, hps, hst, hproc, hspawn]
  rfl

-- Claim theorems
----------------------------------------------------------------------

/-- C1.  The claim states that `save()` followed by `reload()` on a fresh
config whose in-memory property map is empty restores the previously-set
scalar properties.  The code does the opposite: `reload` only applies a
key when it is already a key of the in-memory `_props`, which is empty on
a fresh instance, so nothing at all is restored.  Evaluating the model at
the failing input: a configuration holding all six scalar properties
(port 8999, timeout 30, default_format svg, default_width 500,
default_height 300, default_scale 2) is saved, and a fresh instance that
reloads the saved file is left completely unchanged, its port still the
unset default `None`. -/
theorem orca_c1_fresh_reload_restores_nothing :
    cfgPort gSixScalars = PValue.vInt 8999 ∧
    cfgTimeout gSixScalars = PValue.vInt 30 ∧
    cfgDefaultFormat gSixScalars = PValue.vStr "svg" ∧
    cfgDefaultWidth gSixScalars = PValue.vInt 500 ∧
    cfgDefaultHeight gSixScalars = PValue.vInt 300 ∧
    cfgDefaultScale gSixScalars = PValue.vInt 2 ∧
    configReload freshGlobal (configSave gSixScalars) = freshGlobal ∧
    cfgPort (configReload freshGlobal (configSave gSixScalars)) =
      PValue.vNone := by
  decide

/-- C2, counterexample.  In a state with a running server (pid 4242),
assigning a new executable moves the status state to `validated`, not to
`unvalidated` as the claim says: the `executable` setter calls
`shutdown_orca_server`, not `reset_orca_status`. -/
theorem orca_c2_counterexample :
    gRunning.status.state = "running" ∧
    gRunning.orca.proc = some 4242 ∧
    (setExecutable gRunning (PValue.vStr "/opt/other-orca")).toOption.map
        (fun g' => g'.status.state) = some "validated" ∧
    (setExecutable gRunning (PValue.vStr "/opt/other-orca")).toOption.map
        (fun g' => g'.status.state) ≠ some "unvalidated" := by
  decide

/-- C2, amended.  While a server process is running, assigning
`executable`, `topojson`, `mathjax` or `mapbox_access_token` transitions
the status state to `validated` before the setter returns; the
`executable` setter behaves like the other three and does not reset the
state to `unvalidated`. -/
theorem orca_c2_running_setters_revalidate :
    ∀ (g : Global) (p : Int) (v : String), g.orca.proc = some p →
      ((setExecutable g (PValue.vStr v)).toOption.map
          (fun g' => g'.status.state) = some "validated") ∧
      ((setTopojson g (PValue.vStr v)).toOption.map
          (fun g' => g'.status.state) = some "validated") ∧
      ((setMathjax g (PValue.vStr v)).toOption.map
          (fun g' => g'.status.state) = some "validated") ∧
      ((setMapboxAccessToken g (PValue.vStr v)).toOption.map
          (fun g' => g'.status.state) = some "validated") := by
  intro g p v h
  refine ⟨?_, ?_, ?_, ?_⟩
  · unfold setExecutable
    rcases eq_or_ne v "" with hv | hv
    · subst hv
      simp [pyTruthy, shutdown_orca_server, Except.toOption, h]
    · simp [pyTruthy, hv, shutdown_orca_server, Except.toOption, h]
  · unfold setTopojson
    simp [shutdown_orca_server, Except.toOption, h]
  · unfold setMathjax
    simp [shutdown_orca_server, Except.toOption, h]
  · unfold setMapboxAccessToken
    simp [shutdown_orca_server, Except.toOption, h]

/-- C2, witness for the amended theorem at the concrete running state. -/
theorem orca_c2_witness :
    gRunning.orca.proc = some 4242 ∧
    (((setExecutable gRunning (PValue.vStr "/opt/other-orca")).toOption.map
        (fun g' => g'.status.state) = some "validated") ∧
     ((setTopojson gRunning (PValue.vStr "/opt/other-orca")).toOption.map
        (fun g' => g'.status.state) = some "validated") ∧
     ((setMathjax gRunning (PValue.vStr "/opt/other-orca")).toOption.map
        (fun g' => g'.status.state) = some "validated") ∧
     ((setMapboxAccessToken gRunning
          (PValue.vStr "/opt/other-orca")).toOption.map
        (fun g' => g'.status.state) = some "validated")) :=
  ⟨by decide,
   orca_c2_running_setters_revalidate gRunning 4242 "/opt/other-orca"
     (by decide)⟩

/-- C3, counterexample.  With a server running (pid 4242), setting the
`port` configuration property returns with the process handle still
present and the state still `running`: the `port` setter does not
force-stop the server, although the port determines the `-p` launch
argument. -/
theorem orca_c3_counterexample :
    gRunning.status.state = "running" ∧
    gRunning.orca.proc = some 4242 ∧
    (setPort gRunning (PValue.vInt 9999)).toOption.map
        (fun g' => (g'.orca.proc, g'.status.state)) =
      some (some 4242, "running") := by
  decide

/-- C3, amended.  While a server process is running, the `port` setter
only records the new value, leaving the process handle and the status
state unchanged; the launch-affecting setters that do force-stop the
server before returning are `executable`, `topojson`, `mathjax` and
`mapbox_access_token`, each of which clears the process handle and moves
the state out of `running` to `validated`. -/
theorem orca_c3_port_setter_keeps_server :
    ∀ (g : Global) (p n : Int) (v : String), g.orca.proc = some p →
      ((setPort g (PValue.vInt n)).toOption.map
          (fun g' => (g'.orca.proc, g'.status.state)) =
        some (some p, g.status.state)) ∧
      ((setExecutable g (PValue.vStr v)).toOption.map
          (fun g' => (g'.orca.proc, g'.status.state)) =
        some (none, "validated")) ∧
      ((setTopojson g (PValue.vStr v)).toOption.map
          (fun g' => (g'.orca.proc, g'.status.state)) =
        some (none, "validated")) ∧
      ((setMathjax g (PValue.vStr v)).toOption.map
          (fun g' => (g'.orca.proc, g'.status.state)) =
        some (none, "validated")) ∧
      ((setMapboxAccessToken g (PValue.vStr v)).toOption.map
          (fun g' => (g'.orca.proc, g'.status.state)) =
        some (none, "validated")) := by
  intro g p n v h
  refine ⟨?_, ?_, ?_, ?_, ?_⟩
  · simp [setPort, Except.toOption, h]
  · unfold setExecutable
    rcases eq_or_ne v "" with hv | hv
    · subst hv
      simp [pyTruthy, shutdown_orca_server, Except.toOption, h]
    · simp [pyTruthy, hv, shutdown_orca_server, Except.toOption, h]
  · unfold setTopojson
    simp [shutdown_orca_server, Except.toOption, h]
  · unfold setMathjax
    simp [shutdown_orca_server, Except.toOption, h]
  · unfold setMapboxAccessToken
    simp [shutdown_orca_server, Except.toOption, h]

/-- C3, witness for the amended theorem at the concrete running state. -/
theorem orca_c3_witness :
    gRunning.orca.proc = some 4242 ∧
    (setPort gRunning (PValue.vInt 9999)).toOption.map
        (fun g' => (g'.orca.proc, g'.status.state)) =
      some (some 4242, gRunning.status.state) :=
  ⟨by decide,
   (orca_c3_port_setter_keeps_server gRunning 4242 9999 "/opt/other-orca"
     (by decide)).1⟩

/-- C4, counterexample.  An HTTP exchange that completes with status 500
does not produce a rendering error: the request helper returns the raw
response body as the image bytes, because the source never inspects the
status code of the response. -/
theorem orca_c4_counterexample :
    requestImageWithRetrying [HttpResult.response 500 [137, 80, 78, 71]] =
      Except.ok [137, 80, 78, 71] := by
  decide

/-- C4, amended.  Whenever the HTTP exchange completes, the helper returns
the raw response body regardless of the status code; a raised connection
error is retried while budgeted attempts remain, and the last raised
error is re-raised once the retry budget is exhausted. -/
theorem orca_c4_response_body_always_returned :
    (∀ (s : Nat) (c : List Nat) (rest : List HttpResult),
      requestImageWithRetrying (HttpResult.response s c :: rest) =
        Except.ok c) ∧
    (∀ (m : String) (r : HttpResult) (rest : List HttpResult),
      requestImageWithRetrying (HttpResult.connError m :: r :: rest) =
        requestImageWithRetrying (r :: rest)) ∧
    (∀ (m : String),
      requestImageWithRetrying [HttpResult.connError m] = Except.error m) := by
  refine ⟨?_, ?_, ?_⟩
  · intro s c rest
    cases rest <;> rfl
  · intro m r rest
    rfl
  · intro m
    rfl

/-- C8.  When no server process is running, `shutdown_orca_server` leaves
the whole process-wide state (supervisor internals and every status
field) unchanged, and consequently shutdown is idempotent. -/
theorem orca_c8_shutdown_noop_when_not_running :
    (∀ (g : Global), g.orca.proc = none → shutdown_orca_server g = g) ∧
    (∀ (g : Global),
      shutdown_orca_server (shutdown_orca_server g) =
        shutdown_orca_server g) := by
  constructor
  · intro g h
    unfold shutdown_orca_server
    rw [h]
  · intro g
    rcases h : g.orca.proc with _ | p <;>
      simp [shutdown_orca_server, Except.toOption, h]

/-- C8, witness: shutdown on the fresh import state (no process) is a
no-op. -/
theorem orca_c8_witness :
    freshGlobal.orca.proc = none ∧
    shutdown_orca_server freshGlobal = freshGlobal :=
  ⟨by decide, orca_c8_shutdown_noop_when_not_running.1 freshGlobal (by decide)⟩

/-- C10.  `update` validates every key against the current in-memory
property map before applying anything, so any update containing a key
that is not currently a key of `_props` — including a valid property name
that has never been assigned, as on a fresh instance — raises
`ValueError` (Invalid property name) and returns with the configuration
exactly unchanged. -/
theorem orca_c10_update_unknown_key_rejected :
    ∀ (g : Global) (updates : List (String × PValue)) (k : String)
      (v : PValue),
      (k, v) ∈ updates → dcontains g.props k = false →
      (invalidKey g.props updates).isSome ∧
      configUpdate g updates =
        (g, (invalidKey g.props updates).map
              (fun k' => "Invalid property name: " ++ k')) := by
  intro g updates k v hmem hcon
  have h := invalidKey_isSome_of_mem g.props updates k v hmem hcon
  refine ⟨h, ?_⟩
  obtain ⟨k', hk⟩ := Option.isSome_iff_exists.mp h
  simp [configUpdate, hk]

/-- C10, witness: on a freshly constructed configuration the property map
is empty, so updating the perfectly valid property name `timeout` is
rejected and the configuration is unchanged. -/
theorem orca_c10_witness :
    ("timeout", PValue.vInt 30) ∈ [("timeout", PValue.vInt 30)] ∧
    dcontains freshGlobal.props "timeout" = false ∧
    ((invalidKey freshGlobal.props [("timeout", PValue.vInt 30)]).isSome ∧
     configUpdate freshGlobal [("timeout", PValue.vInt 30)] =
       (freshGlobal,
        (invalidKey freshGlobal.props [("timeout", PValue.vInt 30)]).map
          (fun k' => "Invalid property name: " ++ k'))) :=
  ⟨by decide, by decide,
   orca_c10_update_unknown_key_rejected freshGlobal
     [("timeout", PValue.vInt 30)] "timeout" (PValue.vInt 30)
     (by decide) (by decide)⟩

/-- C5, counterexample.  From a validated state with no server running,
in a world where the first spawn attempt raises a port-bind failure while
a second attempt would succeed, `ensure_orca_server` surfaces the error
to the caller: the supervisor performs no retry with a fresh port. -/
theorem orca_c5_counterexample :
    gValidated.status.state = "validated" ∧
    gValidated.orca.proc = none ∧
    wPortRace.spawn 0 = Except.error "PortUnavailableError" ∧
    wPortRace.spawn 1 = Except.ok 4343 ∧
    ensure_orca_server wPortRace gValidated =
      Except.error "PortUnavailableError" := by
  decide

/-- C5, amended.  A launch failure raised by the spawn (the only place a
reclaimed ephemeral port could manifest) is propagated unchanged to the
caller of `ensure_orca_server`; the supervisor consults only the first
spawn outcome and makes no second attempt. -/
theorem orca_c5_spawn_error_propagates :
    ∀ (w : World) (g : Global) (e : String),
      w.env.psutil = true → g.status.state = "validated" →
      g.orca.proc = none → w.spawn 0 = Except.error e →
      ensure_orca_server w g = Except.error e := by
  intro w g e hps hst hproc hspawn
  simp [ensure_orca_server, launchIfNeeded, hps, hst, hproc, hspawn]

/-- C5, witness for the amended theorem in the concrete racing world. -/
theorem orca_c5_witness :
    wPortRace.env.psutil = true ∧
    gValidated.status.state = "validated" ∧
    gValidated.orca.proc = none ∧
    wPortRace.spawn 0 = Except.error "PortUnavailableError" ∧
    ensure_orca_server wPortRace gValidated =
      Except.error "PortUnavailableError" :=
  ⟨by decide, by decide, by decide, by decide,
   orca_c5_spawn_error_propagates wPortRace gValidated "PortUnavailableError"
     (by decide) (by decide) (by decide) (by decide)⟩

/-- C6.  Format validation lower-cases the string, strips one leading
dot, and maps the alias jpg to jpeg, so JPG, .jpg and jpeg all normalise
to jpeg; every successful normalisation lands in the fixed supported set;
and a string that does not normalise into the set, such as bmp, makes
`to_image` raise `ValueError` without the image request being attempted —
the failure is the same for every sequence of HTTP outcomes, including
the empty one, so the server is never contacted. -/
theorem orca_c6_format_normalization :
    coerceFormatStr "JPG" = some "jpeg" ∧
    coerceFormatStr ".jpg" = some "jpeg" ∧
    coerceFormatStr "jpeg" = some "jpeg" ∧
    validate_coerce_format (PValue.vStr "JPG") =
      Except.ok (PValue.vStr "jpeg") ∧
    validate_coerce_format (PValue.vStr ".jpg") =
      Except.ok (PValue.vStr "jpeg") ∧
    validate_coerce_format (PValue.vStr "bmp") =
      Except.error (formatErrorMsg "bmp") ∧
    (∀ (s f : String), coerceFormatStr s = some f → f ∈ valid_formats) ∧
    (∀ (w : World) (g g' : Global) (wd ht sc : PValue)
       (attempts : List HttpResult) (s : String),
       coerceFormatStr s = none →
       ensure_orca_server w g = Except.ok g' →
       toImage w g (PValue.vStr s) wd ht sc attempts =
         Except.error (formatErrorMsg (stripLeadingDot (pyLower s)))) := by
  refine ⟨by decide, by decide, by decide, by decide, by decide, by decide,
          ?_, ?_⟩
  · intro s f h
    unfold coerceFormatStr at h
    have hvals := lookupAssoc_mem_values format_conversions
      (stripLeadingDot (pyLower s)) f h
    have hsub : ∀ x ∈ format_conversions.map Prod.snd, x ∈ valid_formats := by
      decide
    exact hsub f hvals
  · intro w g g' wd ht sc attempts s hc hens
    unfold coerceFormatStr at hc
    by_cases hs : s = ""
    · subst hs
      simp [toImage, hens, validate_coerce_format]
      rfl
    · simp [toImage, hens, validate_coerce_format, hs, hc]

/-- C6, witness: the invalid format bmp is rejected by a `to_image` call
in the healthy concrete world even with no HTTP outcome available, so no
request was needed to fail. -/
theorem orca_c6_witness :
    coerceFormatStr "bmp" = none ∧
    ensure_orca_server w0 freshGlobal = Except.ok gRunning ∧
    toImage w0 freshGlobal (PValue.vStr "bmp") PValue.vNone PValue.vNone
        PValue.vNone [] =
      Except.error (formatErrorMsg (stripLeadingDot (pyLower "bmp"))) :=
  ⟨by decide, by decide,
   orca_c6_format_normalization.2.2.2.2.2.2.2 w0 freshGlobal gRunning
     PValue.vNone PValue.vNone PValue.vNone [] "bmp" (by decide) (by decide)⟩

/-- C7.  A successful launch records as the status command exactly the
documented argument list, in order: the configured executable, serve,
-p, the chosen port rendered as a string, --graph-only, then the
--plotly, --topojson, --mathjax and --mapbox-access-token pairs, each
present exactly when its configured value is truthy (present and
non-empty) and omitted when it is None or empty. -/
theorem orca_c7_launch_command :
    ∀ (w : World) (g : Global) (pid : Int),
      w.env.psutil = true → g.status.state = "validated" →
      g.orca.proc = none → w.spawn 0 = Except.ok pid →
      (ensure_orca_server w g).toOption.map
          (fun g' => (g'.status.state, g'.status.command)) =
        some ("running",
          some ([pvToCmdStr (cfgExecutable g), "serve", "-p",
                 pvToCmdStr (portChoice w g), "--graph-only"] ++
                (if pyTruthy (cfgPlotlyjs g) then
                  ["--plotly", pvToCmdStr (cfgPlotlyjs g)] else []) ++
                (if pyTruthy (cfgTopojson g) then
                  ["--topojson", pvToCmdStr (cfgTopojson g)] else []) ++
                (if pyTruthy (cfgMathjax g) then
                  ["--mathjax", pvToCmdStr (cfgMathjax g)] else []) ++
                (if pyTruthy (cfgMapbox g) then
                  ["--mapbox-access-token", pvToCmdStr (cfgMapbox g)]
                 else []))) := by
  intro w g pid hps hst hproc hspawn
  rw [ensure_launched w g pid hps hst hproc hspawn]
  simp only [Except.toOption, Option.map]
  rw [armTimer_status]
  rw [buildCmd_eq_append]

/-- C7, witness: launching in the concrete healthy world from the
validated state produces the expected command with the default asset
paths included and the unset mapbox token pair omitted. -/
theorem orca_c7_witness :
    w0.env.psutil = true ∧
    gValidated.status.state = "validated" ∧
    gValidated.orca.proc = none ∧
    w0.spawn 0 = Except.ok 4242 ∧
    (ensure_orca_server w0 gValidated).toOption.map
        (fun g' => (g'.status.state, g'.status.command)) =
      some ("running",
        some ["orca", "serve", "-p", "32000", "--graph-only",
              "--plotly", "/pkg/plotly.min.js",
              "--topojson", "/pkg/topojson",
              "--mathjax", mathjaxDefault]) :=
  ⟨by decide, by decide, by decide, by decide, by
    have h := orca_c7_launch_command w0 gValidated 4242
      (by decide) (by decide) (by decide) (by decide)
    rw [h]
    decide⟩

/-- C9.  With a string destination and no explicit format, `write_image`
with destination out.png behaves exactly as the corresponding request
with the inferred format png followed by writing the destination; and
for any destination whose `splitext` extension is empty it raises
`ValueError` before any image request is made (the failure is identical
for every sequence of HTTP outcomes) and before any file is created (the
error result carries no write event). -/
theorem orca_c9_write_image_format_inference :
    ∀ (w : World) (g : Global) (wd ht sc : PValue)
      (attempts : List HttpResult),
      (writeImage w g "out.png" PValue.vNone wd ht sc attempts =
        (toImage w g (PValue.vStr "png") wd ht sc attempts).map
          (fun r => (r.1, "out.png", r.2))) ∧
      (∀ (file : String), (pySplitext file).2 = "" →
        writeImage w g file PValue.vNone wd ht sc attempts =
          Except.error
            ("Cannot infer image type from output path " ++ file)) := by
  intro w g wd ht sc attempts
  constructor
  · have h1 : pySplitext "out.png" = ("out", ".png") := by decide
    have h2 : validate_coerce_format (PValue.vStr ".png") =
        Except.ok (PValue.vStr "png") := by decide
    simp only [writeImage, h1, h2]
    rcases htoi : toImage w g (PValue.vStr "png") wd ht sc attempts with
      e | pr <;> simp [htoi, Except.map]
  · intro file hext
    simp only [writeImage, hext]
    simp

/-- C9, witness: the extensionless destination out is rejected in the
concrete healthy world with no HTTP outcome available and no write event
produced. -/
theorem orca_c9_witness :
    (pySplitext "out").2 = "" ∧
    writeImage w0 freshGlobal "out" PValue.vNone PValue.vNone PValue.vNone
        PValue.vNone [] =
      Except.error ("Cannot infer image type from output path " ++ "out") :=
  ⟨by decide,
   (orca_c9_write_image_format_inference w0 freshGlobal PValue.vNone
     PValue.vNone PValue.vNone []).2 "out" (by decide)⟩

end Orca
